import Mathlib

/-!
A shallow embedding of the JSON parser in src/parser.rs of andberger/tinyserde.

Modelling conventions:
* The Rust parser indexes the input by Unicode scalar values
  (it calls input.chars().nth(cursor)), so the input is a `List Char`
  and the cursor a `Nat`.
* `i64` arithmetic in parse_number is modelled by `Int` (no claim under
  consideration involves i64 overflow); the Rust cast `ch as u8`
  truncates to the low 8 bits and is modelled by `c.toNat % 256`.
* parse_bool / parse_null slice the input by byte range in Rust; for the
  ASCII documents relevant here byte indices and scalar indices
  coincide, and the out-of-range slice panic is modelled by the `panic`
  outcome.
* Rust's HashMap is modelled as an insertion-ordered association list
  whose insert replaces the value of an existing key, which is exactly
  the lookup-observable semantics of HashMap::insert.
* Loops that are not structurally terminating (the string-unescape loop
  and the mutually recursive object/array/value parsers) take a fuel
  argument; exhausting the fuel yields the `diverge` outcome carrying
  the parser state reached at that point, so genuine non-termination of
  the Rust loop appears as `∀ fuel, result = diverge _`.
* `.unwrap()` applied to an Err aborts the Rust process; this (and the
  slice panic above) is modelled by the `panic` outcome.
-/

/-- struct JsonParser \x7b input: String, cursor: usize \x7d, with the input
viewed as its sequence of Unicode scalar values. -/
structure JsonParser where
  input : List Char
  cursor : Nat
deriving Repr

/-- enum JsonValue. Object is an insertion-ordered association list
standing for the HashMap. -/
inductive JsonValue where
  | null : JsonValue
  | bool (b : Bool) : JsonValue
  | number (n : Int) : JsonValue
  | string (s : String) : JsonValue
  | array (elems : List JsonValue) : JsonValue
  | object (entries : List (String × JsonValue)) : JsonValue
deriving Repr

/-- enum ParserError. -/
inductive ParserError where
  | consumeInputNotFinished (pos : Nat) : ParserError
  | parseHelperFailed (msg : String) : ParserError
  | parseError (msg : String) : ParserError
  | invalidJson (msg : String) : ParserError
deriving Repr, DecidableEq

/-- enum ParseType. -/
inductive ParseType where
  | null | boolean | number | string | array | object | unknown
deriving Repr, DecidableEq

/-- Result of running a parser step: ok/err as in Rust's Result (each
carrying the parser state, since the Rust methods mutate self), `panic`
for a process abort (.unwrap() on an Err, out-of-range slice), and
`diverge` for fuel exhaustion, carrying the state reached. -/
inductive Outcome (α : Type) where
  | ok (a : α) (p : JsonParser) : Outcome α
  | err (e : ParserError) (p : JsonParser) : Outcome α
  | panic : Outcome α
  | diverge (p : JsonParser) : Outcome α
deriving Repr

/-- fn is_whitespace. -/
def is_whitespace (c : Char) : Bool :=
  match c with
  | '\t' => true
  | '\n' => true
  | '\r' => true
  | ' ' => true
  | _ => false

/-- fn is_numeric_char. -/
def is_numeric_char (c : Char) : Bool :=
  match c with
  | '-' => true
  | '0' => true
  | '1' => true
  | '2' => true
  | '3' => true
  | '4' => true
  | '5' => true
  | '6' => true
  | '7' => true
  | '8' => true
  | '9' => true
  | _ => false

/-- fn determine_parse_type. -/
def determine_parse_type (c : Char) : ParseType :=
  if c = '\x7b' then ParseType.object
  else if c = '[' then ParseType.array
  else if is_numeric_char c then ParseType.number
  else if c = '\"' then ParseType.string
  else if c = 't' ∨ c = 'f' then ParseType.boolean
  else if c = 'n' then ParseType.null
  else ParseType.unknown

/-- fn eof: cursor >= input.chars().count(). -/
def eof (p : JsonParser) : Bool :=
  decide (p.input.length ≤ p.cursor)

/-- fn peek: at end of input the Rust code returns the sentinel
character, otherwise input.chars().nth(cursor).unwrap(). -/
def peek (p : JsonParser) : Char :=
  if eof p then '|'
  else p.input.getD p.cursor '|'

/-- The while loop of fn skip_whitespace, made structurally recursive on
the number of remaining characters: the loop advances the cursor by one
per iteration and stops at end of input, so `input.length - cursor`
iterations always suffice. -/
def skip_whitespace_go : Nat → JsonParser → JsonParser
  | 0, p => p
  | gas + 1, p =>
    if eof p then p
    else if is_whitespace (p.input.getD p.cursor '|') then
      skip_whitespace_go gas { p with cursor := p.cursor + 1 }
    else p

/-- fn skip_whitespace. -/
def skip_whitespace (p : JsonParser) : JsonParser :=
  skip_whitespace_go (p.input.length - p.cursor) p

/-- fn consume_specific: returns the Rust bool together with the updated
parser state. -/
def consume_specific (p : JsonParser) (expected : Char) : Bool × JsonParser :=
  if peek p ≠ expected then (false, p)
  else (true, { p with cursor := p.cursor + 1 })

/-- The while loop of fn consume_and_unescape_string, with fuel: the
Rust loop `while peek() != quote` has no end-of-input test (peek keeps
returning the sentinel there), so it is not terminating in general. -/
def unescape_loop : Nat → JsonParser → String → Outcome String
  | 0, p, _ => Outcome.diverge p
  | fuel + 1, p, builder =>
    if peek p = '\"' then
      Outcome.ok builder { p with cursor := p.cursor + 1 }
    else
      unescape_loop fuel { p with cursor := p.cursor + 1 } (builder.push (peek p))

/-- fn consume_and_unescape_string. -/
def consume_and_unescape_string (fuel : Nat) (p : JsonParser) : Outcome String :=
  match consume_specific p '\"' with
  | (false, p1) => Outcome.err (ParserError.parseError "Expected quote") p1
  | (true, p1) => unescape_loop fuel p1 ""

/-- Rust cast `c as u8`: truncation to the low 8 bits. -/
def asU8 (c : Char) : Nat := c.toNat % 256

/-- The digit-accumulation while loop of fn parse_number, structurally
recursive on the remaining characters (it stops at end of input and
otherwise advances the cursor each iteration).  The digit test is the
source's strict comparison: ch as u8 > b'0' (48) and ch as u8 <= b'9'
(57). -/
def parse_number_go : Nat → JsonParser → Int → Int × JsonParser
  | 0, p, value => (value, p)
  | gas + 1, p, value =>
    if eof p then (value, p)
    else
      let ch := peek p
      if ¬ (asU8 ch > 48 ∧ asU8 ch ≤ 57) then (value, p)
      else parse_number_go gas { p with cursor := p.cursor + 1 }
        (value * 10 + ((asU8 ch - 48 : Nat) : Int))

/-- fn parse_number: always returns Ok of the accumulated value. -/
def parse_number (p : JsonParser) : Outcome JsonValue :=
  let r := parse_number_go (p.input.length - p.cursor) p 0
  Outcome.ok (JsonValue.number r.1) r.2

/-- fn parse_bool.  Rust slices input[cursor..cursor+4] by bytes and
panics when the range is out of bounds; here the slice is taken on the
scalar-value sequence (they agree on ASCII input). -/
def parse_bool (p : JsonParser) : Outcome JsonValue :=
  if p.input.length < p.cursor + 4 then Outcome.panic
  else if (p.input.drop p.cursor).take 4 = "true".toList then
    Outcome.ok (JsonValue.bool true) { p with cursor := p.cursor + 4 }
  else if p.input.length < p.cursor + 5 then Outcome.panic
  else if (p.input.drop p.cursor).take 5 = "false".toList then
    Outcome.ok (JsonValue.bool false) { p with cursor := p.cursor + 5 }
  else Outcome.err (ParserError.parseError "Expected either true or false") p

/-- fn parse_null, with the same slicing convention as parse_bool. -/
def parse_null (p : JsonParser) : Outcome JsonValue :=
  if p.input.length < p.cursor + 4 then Outcome.panic
  else if (p.input.drop p.cursor).take 4 = "null".toList then
    Outcome.ok JsonValue.null { p with cursor := p.cursor + 4 }
  else Outcome.err (ParserError.parseError "Expected null") p

/-- HashMap::insert as observed through lookups: replace the value of an
existing key, otherwise add the binding. -/
def hmInsert : List (String × JsonValue) → String → JsonValue → List (String × JsonValue)
  | [], k, v => [(k, v)]
  | (k1, v1) :: rest, k, v =>
    if k1 = k then (k, v) :: rest
    else (k1, v1) :: hmInsert rest k v

/-- HashMap lookup on the association-list model. -/
def hmLookup : List (String × JsonValue) → String → Option JsonValue
  | [], _ => none
  | (k1, v1) :: rest, k => if k1 = k then some v1 else hmLookup rest k

/-- The tail of fn parse_object after its loop breaks: consume the
closing brace and return the accumulated object. -/
def parse_object_end (p : JsonParser) (values : List (String × JsonValue)) :
    Outcome JsonValue :=
  match consume_specific p '\x7d' with
  | (false, p1) => Outcome.err (ParserError.parseError "Expected close brace") p1
  | (true, p1) => Outcome.ok (JsonValue.object values) p1

mutual

/-- fn parse_helper.  Fuel is consumed once per call; running out models
the recursion still being in progress. -/
def parse_helper : Nat → JsonParser → Outcome JsonValue
  | 0, p => Outcome.diverge p
  | fuel + 1, p0 =>
    let p := skip_whitespace p0
    match determine_parse_type (peek p) with
    | ParseType.object => parse_object fuel p
    | ParseType.number => parse_number p
    | ParseType.string => parse_string fuel p
    | ParseType.boolean => parse_bool p
    | ParseType.null => parse_null p
    | ParseType.array => parse_array fuel p
    | ParseType.unknown =>
      Outcome.err (ParserError.parseHelperFailed "ParseHelper failed.") p

/-- fn parse_string: .unwrap() on the Err of consume_and_unescape_string
aborts. -/
def parse_string : Nat → JsonParser → Outcome JsonValue
  | fuel, p =>
    match consume_and_unescape_string fuel p with
    | Outcome.ok s p1 => Outcome.ok (JsonValue.string s) p1
    | Outcome.err _ _ => Outcome.panic
    | Outcome.panic => Outcome.panic
    | Outcome.diverge p1 => Outcome.diverge p1

/-- fn parse_object up to entering its loop. -/
def parse_object : Nat → JsonParser → Outcome JsonValue
  | 0, p => Outcome.diverge p
  | fuel + 1, p =>
    match consume_specific p '\x7b' with
    | (false, p1) => Outcome.err (ParserError.parseError "Expected open brace") p1
    | (true, p1) => parse_object_loop fuel p1 []

/-- The loop of fn parse_object.  Each iteration: reject an immediate
closing brace as InvalidJson, consume a key with .unwrap(), expect a
colon, parse the value with .unwrap(), insert, then either break at a
closing brace, or expect a comma and reject a closing brace right after
it as InvalidJson. -/
def parse_object_loop : Nat → JsonParser → List (String × JsonValue) → Outcome JsonValue
  | 0, p, _ => Outcome.diverge p
  | fuel + 1, p0, values =>
    let p := skip_whitespace p0
    if peek p = '\x7d' then Outcome.err (ParserError.invalidJson "Invalid JSON.") p
    else
      let p := skip_whitespace p
      match consume_and_unescape_string fuel p with
      | Outcome.err _ _ => Outcome.panic
      | Outcome.panic => Outcome.panic
      | Outcome.diverge p1 => Outcome.diverge p1
      | Outcome.ok key p1 =>
        let p2 := skip_whitespace p1
        match consume_specific p2 ':' with
        | (false, p3) => Outcome.err (ParserError.parseError "Expected colon") p3
        | (true, p3) =>
          let p4 := skip_whitespace p3
          match parse_helper fuel p4 with
          | Outcome.err _ _ => Outcome.panic
          | Outcome.panic => Outcome.panic
          | Outcome.diverge p5 => Outcome.diverge p5
          | Outcome.ok value p5 =>
            let values1 := hmInsert values key value
            let p6 := skip_whitespace p5
            if peek p6 = '\x7d' then parse_object_end p6 values1
            else
              match consume_specific p6 ',' with
              | (false, p7) => Outcome.err (ParserError.parseError "Expected comma") p7
              | (true, p7) =>
                let p8 := skip_whitespace p7
                if peek p8 = '\x7d' then
                  Outcome.err (ParserError.invalidJson "Invalid JSON.") p8
                else parse_object_loop fuel p8 values1

/-- fn parse_array up to entering its loop. -/
def parse_array : Nat → JsonParser → Outcome JsonValue
  | 0, p => Outcome.diverge p
  | fuel + 1, p =>
    match consume_specific p '[' with
    | (false, p1) => Outcome.err (ParserError.parseError "Expected open bracket") p1
    | (true, p1) => parse_array_loop fuel p1 []

/-- The while loop of fn parse_array together with the closing-bracket
consumption after it: while the lookahead is not a closing bracket,
parse an element with .unwrap() and then require a comma — unless a
closing bracket follows directly, which the source accepts (so a
trailing comma before the closing bracket is accepted). -/
def parse_array_loop : Nat → JsonParser → List JsonValue → Outcome JsonValue
  | 0, p, _ => Outcome.diverge p
  | fuel + 1, p, array =>
    if peek p ≠ ']' then
      let p1 := skip_whitespace p
      match parse_helper fuel p1 with
      | Outcome.err _ _ => Outcome.panic
      | Outcome.panic => Outcome.panic
      | Outcome.diverge p2 => Outcome.diverge p2
      | Outcome.ok element p2 =>
        let array1 := array ++ [element]
        let p3 := skip_whitespace p2
        match consume_specific p3 ',' with
        | (true, p4) => parse_array_loop fuel p4 array1
        | (false, p4) =>
          if peek p4 = ']' then parse_array_loop fuel p4 array1
          else Outcome.err (ParserError.parseError "Expected comma or close bracket") p4
    else
      match consume_specific p ']' with
      | (false, p1) => Outcome.err (ParserError.parseError "Expected close bracket") p1
      | (true, p1) => Outcome.ok (JsonValue.array array) p1

end

/-- fn parse: run parse_helper, skip trailing whitespace, and demand end
of input — note the end-of-input check runs and takes precedence even
when parse_helper returned an Err. -/
def parse (fuel : Nat) (p : JsonParser) : Outcome JsonValue :=
  match parse_helper fuel p with
  | Outcome.panic => Outcome.panic
  | Outcome.diverge p1 => Outcome.diverge p1
  | Outcome.ok v p1 =>
    let p2 := skip_whitespace p1
    if ¬ eof p2 then Outcome.err (ParserError.consumeInputNotFinished p2.cursor) p2
    else Outcome.ok v p2
  | Outcome.err e p1 =>
    let p2 := skip_whitespace p1
    if ¬ eof p2 then Outcome.err (ParserError.consumeInputNotFinished p2.cursor) p2
    else Outcome.err e p2

/-- A fresh parser over a document, as the callers construct it:
JsonParser with the given input and cursor 0. -/
def mkParser (s : String) : JsonParser :=
  ⟨s.toList, 0⟩

/-! ### Supporting lemmas -/

/-- Lookup after HashMap-style insert finds the inserted value. -/
lemma hmLookup_hmInsert (m : List (String × JsonValue)) (k : String) (v : JsonValue) :
    hmLookup (hmInsert m k v) k = some v := by
  induction m with
  | nil => simp [hmInsert, hmLookup]
  | cons kv rest ih =>
    obtain ⟨k1, v1⟩ := kv
    by_cases h : k1 = k
    · simp [hmInsert, hmLookup, h]
    · simp [hmInsert, hmLookup, h, ih]

/-- On the unterminated document consisting of a quote and then abc, any
cursor position at or past 1 never looks at a quote character: positions
1 to 3 hold letters, and past the end peek returns the sentinel. -/
lemma peek_ne_quote_abc (c : Nat) (h : 1 ≤ c) :
    peek ⟨['\"', 'a', 'b', 'c'], c⟩ ≠ '\"' := by
  match c, h with
  | 1, _ => decide
  | 2, _ => decide
  | 3, _ => decide
  | n + 4, _ =>
    have he : eof ⟨['\"', 'a', 'b', 'c'], n + 4⟩ = true := by
      simp [eof]
    simp [peek, he]

/-- The unescape loop on the unterminated document never produces a
result, whatever the fuel: it exhausts any fuel it is given. -/
lemma unescape_loop_diverges_abc (fuel : Nat) :
    ∀ (c : Nat) (b : String), 1 ≤ c →
      ∃ q, unescape_loop fuel ⟨['\"', 'a', 'b', 'c'], c⟩ b = Outcome.diverge q := by
  induction fuel with
  | zero =>
    intro c b h
    exact ⟨_, rfl⟩
  | succ n ih =>
    intro c b h
    have hq := peek_ne_quote_abc c h
    simp only [unescape_loop, if_neg hq]
    exact ih (c + 1) (b.push (peek ⟨['\"', 'a', 'b', 'c'], c⟩)) (by omega)

/-- A nesting-only document: n opening brackets followed by n closing
brackets. -/
def nestedBrackets (n : Nat) : JsonParser :=
  ⟨List.replicate n '[' ++ List.replicate n ']', 0⟩

/-- The value such a document denotes: n+1 nested singleton arrays
around an empty array. -/
def deepArray : Nat → JsonValue
  | 0 => JsonValue.array []
  | n + 1 => JsonValue.array [deepArray n]

/-! ### Claims -/

/-- C1: the claim states that every optionally-signed decimal digit
sequence parses to the corresponding Number, with the digit zero
recognized and a leading minus applied.  The code instead uses the
strict comparison ch as u8 > 48 (so the digit 0 never passes the digit
test) and never consumes a minus sign, so the documents 0, 10, 105 and
-5 all fail with ConsumeInputNotFinished, while 5 (no zero, no sign)
parses.  This theorem records what the code actually does on those
inputs. -/
theorem c1_number_literals_misparsed :
    parse 8 (mkParser "0") =
      Outcome.err (ParserError.consumeInputNotFinished 0) (mkParser "0")
    ∧ parse 8 (mkParser "10") =
      Outcome.err (ParserError.consumeInputNotFinished 1) ⟨"10".toList, 1⟩
    ∧ parse 8 (mkParser "105") =
      Outcome.err (ParserError.consumeInputNotFinished 1) ⟨"105".toList, 1⟩
    ∧ parse 8 (mkParser "-5") =
      Outcome.err (ParserError.consumeInputNotFinished 0) (mkParser "-5")
    ∧ parse 8 (mkParser "5") =
      Outcome.ok (JsonValue.number 5) ⟨"5".toList, 1⟩ :=
  ⟨rfl, rfl, rfl, rfl, rfl⟩

/-- C2: the claim states that parse never aborts the process — every
nested failure is propagated as a typed error.  The code instead calls
.unwrap() on the nested results in parse_object (key and value) and
parse_array (element), so a malformed key, a malformed object value and
a malformed array element each abort: the abort branch is reachable. -/
theorem c2_nested_failure_panics :
    parse 8 (mkParser "\x7b1\x7d") = Outcome.panic
    ∧ parse 8 (mkParser "[@]") = Outcome.panic
    ∧ parse 16 (mkParser "\x7b\"a\":@\x7d") = Outcome.panic :=
  ⟨rfl, rfl, rfl⟩

/-- C3: the claim states that the empty object and the empty array both
parse successfully.  The code accepts the empty array but rejects the
empty object: parse_object reports InvalidJson on an immediate closing
brace, which the top-level parse then masks as
ConsumeInputNotFinished(1) because the unconsumed brace remains. -/
theorem c3_empty_object_rejected_empty_array_accepted :
    parse_object 4 (mkParser "\x7b\x7d") =
      Outcome.err (ParserError.invalidJson "Invalid JSON.") ⟨"\x7b\x7d".toList, 1⟩
    ∧ parse 4 (mkParser "\x7b\x7d") =
      Outcome.err (ParserError.consumeInputNotFinished 1) ⟨"\x7b\x7d".toList, 1⟩
    ∧ parse 4 (mkParser "[]") =
      Outcome.ok (JsonValue.array []) ⟨"[]".toList, 2⟩ :=
  ⟨rfl, rfl, rfl⟩

/-- C4: the claim states that the string-literal consumer terminates and
fails on an unterminated string.  The code instead loops forever: past
the end of input peek returns the sentinel character, which never equals
the closing quote, so on the document consisting of a quote followed by
abc the loop exhausts any amount of fuel. -/
theorem c4_unterminated_string_never_terminates (fuel : Nat) :
    ∃ q, consume_and_unescape_string fuel (mkParser "\"abc") = Outcome.diverge q := by
  have h : consume_and_unescape_string fuel (mkParser "\"abc")
      = unescape_loop fuel ⟨['\"', 'a', 'b', 'c'], 1⟩ "" := rfl
  rw [h]
  exact unescape_loop_diverges_abc fuel 1 "" (by omega)

/-- C5: the claim states that a trailing comma before a closing
delimiter fails with a MalformedStructure (InvalidJson) error in both
containers.  The object parser does reject it (InvalidJson, masked at
top level as ConsumeInputNotFinished), but the array parser accepts a
trailing comma: the comma is consumed, the loop re-checks and finds the
closing bracket, and the document parses successfully. -/
theorem c5_array_trailing_comma_accepted :
    parse 8 (mkParser "[1,]") =
      Outcome.ok (JsonValue.array [JsonValue.number 1]) ⟨"[1,]".toList, 4⟩
    ∧ parse_object 8 (mkParser "\x7b\"a\":1,\x7d") =
      Outcome.err (ParserError.invalidJson "Invalid JSON.") ⟨"\x7b\"a\":1,\x7d".toList, 7⟩
    ∧ parse 8 (mkParser "\x7b\"a\":1,\x7d") =
      Outcome.err (ParserError.consumeInputNotFinished 7) ⟨"\x7b\"a\":1,\x7d".toList, 7⟩ :=
  ⟨rfl, rfl, rfl⟩

/-- C6: the claim states that a configurable maximum nesting depth
exists and that exceeding it fails with DepthExceeded.  The code has no
depth bound at all: the error enum has exactly the four kinds below,
none of them depth-related, and a document of nesting depth 10 (or any
depth, given fuel) parses successfully. -/
theorem c6_no_depth_error_and_deep_nesting_parses :
    (∀ e : ParserError,
      (∃ n, e = ParserError.consumeInputNotFinished n)
      ∨ (∃ s, e = ParserError.parseHelperFailed s)
      ∨ (∃ s, e = ParserError.parseError s)
      ∨ (∃ s, e = ParserError.invalidJson s))
    ∧ parse 50 (nestedBrackets 10) =
      Outcome.ok (deepArray 9) ⟨(nestedBrackets 10).input, 20⟩ := by
  constructor
  · intro e
    cases e with
    | consumeInputNotFinished n => exact Or.inl ⟨n, rfl⟩
    | parseHelperFailed s => exact Or.inr (Or.inl ⟨s, rfl⟩)
    | parseError s => exact Or.inr (Or.inr (Or.inl ⟨s, rfl⟩))
    | invalidJson s => exact Or.inr (Or.inr (Or.inr ⟨s, rfl⟩))
  · rfl

/-- C7: the claim states that escape sequences are decoded while
copying.  The code copies verbatim: the six-character document
quote a backslash n b quote parses to the four-character string
a backslash n b, not to the three-character string containing a
newline. -/
theorem c7_escapes_copied_verbatim :
    parse 16 (mkParser "\"a\\nb\"") =
      Outcome.ok (JsonValue.string "a\\nb") ⟨"\"a\\nb\"".toList, 6⟩
    ∧ "a\\nb" ≠ "a\nb" :=
  ⟨rfl, by decide⟩

/-- C8: duplicate object keys resolve last-write-wins.  The insert used
by the object parser replaces the value bound to an existing key (so two
inserts of the same key leave the second value), and the document from
the spec with the key a bound first to 1 and then to 2 parses to an
object binding a to Number 2. -/
theorem c8_duplicate_keys_last_write_wins :
    (∀ (m : List (String × JsonValue)) (k : String) (v1 v2 : JsonValue),
      hmLookup (hmInsert (hmInsert m k v1) k v2) k = some v2)
    ∧ parse 16 (mkParser "\x7b\"a\":1,\"a\":2\x7d") =
      Outcome.ok (JsonValue.object [("a", JsonValue.number 2)])
        ⟨"\x7b\"a\":1,\"a\":2\x7d".toList, 13⟩ :=
  ⟨fun m k v1 _ => hmLookup_hmInsert (hmInsert m k v1) k _, rfl⟩

/-- C9: the claim states the invariant 0 ≤ cursor ≤ character_count
throughout every parse.  In the unterminated-string loop the cursor
keeps advancing past the end of input: on the two-character document
consisting of a quote and the letter a, after ten loop steps the cursor
stands at 11, exceeding the character count 2. -/
theorem c9_cursor_exceeds_input_length :
    consume_and_unescape_string 10 (mkParser "\"a") =
      Outcome.diverge ⟨"\"a".toList, 11⟩
    ∧ (mkParser "\"a").input.length < 11 :=
  ⟨rfl, by decide⟩

/-- C10: the number rule never fails: parse_number returns Ok of some
Number for every parser state, the dispatcher routes a minus sign to it,
a lone minus yields Number 0 without advancing the cursor, and the
malformed document consisting only of a minus sign surfaces as the
trailing-input error ConsumeInputNotFinished, not a number-syntax
error. -/
theorem c10_parse_number_never_fails :
    (∀ p : JsonParser, ∃ (n : Int) (q : JsonParser),
      parse_number p = Outcome.ok (JsonValue.number n) q)
    ∧ determine_parse_type '-' = ParseType.number
    ∧ parse_number (mkParser "-") = Outcome.ok (JsonValue.number 0) (mkParser "-")
    ∧ parse 8 (mkParser "-") =
      Outcome.err (ParserError.consumeInputNotFinished 0) (mkParser "-") :=
  ⟨fun p => ⟨(parse_number_go (p.input.length - p.cursor) p 0).1,
    (parse_number_go (p.input.length - p.cursor) p 0).2, rfl⟩, rfl, rfl, rfl⟩
